import Mathlib

/-!
Shallow embedding of the xdl input library (key/virtual-button tracking).

Sources embedded here:
* `src/axis.rs` — `Sign`, `Dir4`, `Dir8` and their conversions;
* `src/input/keyboard.rs` — the double-buffered 256-bit key-state bitset
  (`KeyboardStateSnapshot`, `Keyboard`) and edge queries;
* `src/vi.rs` — `KeyRepeatConfig`, `KeyRepeatState`, `KeyEntry`,
  `InputBundle`, `Button`, `AxisButton`, `AxisDirButton`.

Conventions:
* Rust `Duration` values are modelled as `Nat` (milliseconds); the source
  only adds, subtracts under a strict-greater guard, compares and takes
  `min` of durations, all of which are order-isomorphic to `Nat`.
* Rust `u32` words are `Nat` with wrapping (`% 2^32`) made explicit where
  the source relies on it.
* A Rust panic (slice index out of bounds, `unwrap` failure) is `none` in
  an `Option`-returning model.
* `Key` is modelled by its `u32` discriminant (the enum in
  `keyboard.rs` assigns every variant an explicit code `< 256`).
-/

namespace Xdl

/-- Key codes are the `u32` discriminants of the `Key` enum in
`src/input/keyboard.rs`. -/
abbrev Key := Nat

/-- Rust `Key::LShift as u32` -/
def Key.LShift : Key := 160
/-- Rust `Key::RShift as u32` -/
def Key.RShift : Key := 161
/-- Rust `Key::LCtrl as u32` -/
def Key.LCtrl : Key := 162
/-- Rust `Key::RCtrl as u32` -/
def Key.RCtrl : Key := 163
/-- Rust `Key::LMeta as u32` -/
def Key.LMeta : Key := 91
/-- Rust `Key::RMeta as u32` -/
def Key.RMeta : Key := 92
/-- Rust `Key::A as u32` -/
def Key.A : Key := 65
/-- Rust `Key::Back as u32` (backspace, discriminant 8) -/
def Key.Back : Key := 8

/-- Every discriminant of the `Key` enum in `src/input/keyboard.rs`
(the domain of `Key::try_from` via `TryFromPrimitive`). -/
def validKeyCodes : List Nat :=
  [0, 8, 9, 13, 20, 27, 32, 33, 34, 35, 36, 37, 38, 39, 40, 41, 42, 43, 44,
   45, 46, 47, 48, 49, 50, 51, 52, 53, 54, 55, 56, 57,
   65, 66, 67, 68, 69, 70, 71, 72, 73, 74, 75, 76, 77, 78, 79, 80, 81, 82,
   83, 84, 85, 86, 87, 88, 89, 90,
   91, 92, 93, 95,
   96, 97, 98, 99, 100, 101, 102, 103, 104, 105,
   106, 107, 108, 109, 110, 111,
   112, 113, 114, 115, 116, 117, 118, 119, 120, 121, 122, 123, 124, 125,
   126, 127, 128, 129, 130, 131, 132, 133, 134, 135,
   144, 145,
   160, 161, 162, 163, 164, 165,
   166, 167, 168, 169, 170, 171, 172, 173, 174, 175,
   176, 177, 178, 179, 180, 181, 182, 183,
   186, 187, 188, 189, 190, 191, 192,
   219, 220, 221, 222, 223, 226, 229,
   246, 247, 248, 249, 250, 251, 253, 254,
   202, 203, 19, 28, 29, 21, 25, 243, 242, 244]

/-- Rust `Key::try_from(n)` (`TryFromPrimitive`): succeeds exactly on the
enum's discriminants. -/
def Key.try_from (n : Nat) : Option Key :=
  if n ∈ validKeyCodes then some n else none

-- ---------------------------------------------------------------------------
-- src/axis.rs

/-- Rust `Sign`: Pos | Neg | Neutral -/
inductive Sign where
  | Pos
  | Neg
  | Neutral
deriving DecidableEq, Repr

/-- Rust `Sign::to_i8` (note: the source function is named `to_i8` but returns
`i32`). -/
def Sign.to_i8 : Sign → Int
  | .Pos => 1
  | .Neg => -1
  | .Neutral => 0

/-- Rust `Dir4`: one of the four directions -/
inductive Dir4 where
  | N
  | E
  | S
  | W
deriving DecidableEq, Repr

/-- Rust `Dir8`: one of the eight directions -/
inductive Dir8 where
  | N
  | NE
  | E
  | SE
  | S
  | SW
  | W
  | NW
deriving DecidableEq, Repr

/-- Rust `Dir8::x_sign` -/
def Dir8.x_sign : Dir8 → Sign
  | .W | .NW | .SW => .Neg
  | .E | .NE | .SE => .Pos
  | .N | .S => .Neutral

/-- Rust `Dir8::y_sign` -/
def Dir8.y_sign : Dir8 → Sign
  | .N | .NE | .NW => .Neg
  | .S | .SE | .SW => .Pos
  | .E | .W => .Neutral

/-- Rust `Dir8::signs` (`[Sign; 2]` modelled as a pair, x component first). -/
def Dir8.signs (d : Dir8) : Sign × Sign :=
  (d.x_sign, d.y_sign)

/-- Rust `Dir8::from_signs`: the match over `[x, y]` in `src/axis.rs`.  The
source's `unreachable!()` arm cannot be hit since `to_i8` only yields
-1, 0, 1. -/
def Dir8.from_signs (signs : Sign × Sign) : Option Dir8 :=
  let x := signs.1.to_i8
  let y := signs.2.to_i8
  if x = 0 ∧ y = 0 then none
  else if x = 0 ∧ y = -1 then some .N
  else if x = 1 ∧ y = -1 then some .NE
  else if x = 1 ∧ y = 0 then some .E
  else if x = 1 ∧ y = 1 then some .SE
  else if x = 0 ∧ y = 1 then some .S
  else if x = -1 ∧ y = 1 then some .SW
  else if x = -1 ∧ y = 0 then some .W
  else some .NW

-- ---------------------------------------------------------------------------
-- src/input/keyboard.rs : bitset snapshots and the double buffer

/-- Rust `KeyboardStateSnapshot`: 256 bits of key state as 8 `u32` words. -/
structure KeyboardStateSnapshot where
  bits : List Nat
deriving DecidableEq, Repr

namespace KeyboardStateSnapshot

/-- Rust `KeyboardStateSnapshot::is_down`:
`mask = 1 << (key & 0x1f); ix = key >> 5; bits[ix] & mask != 0`. -/
def is_down (s : KeyboardStateSnapshot) (key : Key) : Bool :=
  let mask := 1 <<< (key &&& 0x1f)
  let ix := key >>> 5
  (s.bits.getD ix 0) &&& mask ≠ 0

/-- Rust `KeyboardStateSnapshot::is_up` -/
def is_up (s : KeyboardStateSnapshot) (key : Key) : Bool :=
  !s.is_down key

/-- Rust `KeyboardStateSnapshot::on_key_down` -/
def on_key_down (s : KeyboardStateSnapshot) (key : Key) : KeyboardStateSnapshot :=
  let mask := 1 <<< (key &&& 0x1f)
  let ix := key >>> 5
  ⟨s.bits.set ix ((s.bits.getD ix 0) ||| mask)⟩

/-- Rust `KeyboardStateSnapshot::on_key_up` (`bits[ix] &= !mask`, `u32`
complement made explicit as xor with the all-ones word). -/
def on_key_up (s : KeyboardStateSnapshot) (key : Key) : KeyboardStateSnapshot :=
  let mask := 1 <<< (key &&& 0x1f)
  let ix := key >>> 5
  ⟨s.bits.set ix ((s.bits.getD ix 0) &&& (mask ^^^ 0xffffffff))⟩

end KeyboardStateSnapshot

/-- The two-slot frame buffer `Double<T>` from `crate::utils`.  Modelled
from the spec: `utils.rs` is not among the provided sources, but the spec
(§3, §9) describes a two-field current/previous pair and `keyboard.rs`
accesses exactly the fields `a` (current) and `b` (previous). -/
structure Double (T : Type) where
  a : T
  b : T
deriving DecidableEq, Repr

/-- Rust `Keyboard` (the backend translation table `e2x` is pure lookup data
and is not part of any claim; only the double-buffered state is kept). -/
structure Keyboard where
  states : Double KeyboardStateSnapshot
deriving DecidableEq, Repr

namespace Keyboard

/-- Rust `Keyboard::is_key_down`: reads the current (`a`) buffer. -/
def is_key_down (k : Keyboard) (key : Key) : Bool :=
  k.states.a.is_down key

/-- Rust `Keyboard::is_key_up` -/
def is_key_up (k : Keyboard) (key : Key) : Bool :=
  k.states.a.is_up key

/-- Rust `Keyboard::is_key_pressed`: previous (`b`) up and current (`a`) down. -/
def is_key_pressed (k : Keyboard) (key : Key) : Bool :=
  k.states.b.is_up key && k.states.a.is_down key

/-- Rust `Keyboard::is_key_released`: previous down and current up. -/
def is_key_released (k : Keyboard) (key : Key) : Bool :=
  k.states.b.is_down key && k.states.a.is_up key

/-- Rust `Keyboard::on_end_frame`: `states.b.bits = states.a.bits` — the
once-per-frame buffer swap copying current into previous. -/
def on_end_frame (k : Keyboard) : Keyboard :=
  ⟨⟨k.states.a, k.states.a⟩⟩

end Keyboard

/-- Rust `Input` (`src/input.rs`): the mouse field is commented out in the
source. -/
structure Input where
  kbd : Keyboard
deriving DecidableEq, Repr

-- ---------------------------------------------------------------------------
-- src/vi.rs : key repeat

/-- Rust `KeyRepeatConfig` (durations in milliseconds). -/
inductive KeyRepeatConfig where
  | Repeat (first multi : Nat)
  | NoRepeat
deriving DecidableEq, Repr

/-- Rust `RawButtonState`: Down | Up | Pressed | Released (repeats not
considered). -/
inductive RawButtonState where
  | Down
  | Up
  | Pressed
  | Released
deriving DecidableEq, Repr

/-- Rust `StrictButtonState`: Down | Up | Pressed | Repeating | Released. -/
inductive StrictButtonState where
  | Down
  | Up
  | Pressed
  | Repeating
  | Released
deriving DecidableEq, Repr

/-- Rust `KeyRepeatState` -/
structure KeyRepeatState where
  config : KeyRepeatConfig
  accum_repeat : Nat
  accum_down : Nat
  is_on_first_repeat : Bool
deriving DecidableEq, Repr

namespace KeyRepeatState

/-- Rust `KeyRepeatState::new` -/
def new (cfg : KeyRepeatConfig) : KeyRepeatState :=
  ⟨cfg, 0, 0, false⟩

/-- The `while self.accum_repeat > repeat_duration` loop in
`KeyRepeatState::update`: subtracts `rd` from `ar` while `ar > rd` and
reports whether at least one iteration ran.  The `fuel` argument (called
with `fuel = ar`) makes the recursion structural; when `rd ≥ 1` each
iteration shrinks `ar` by at least 1 so `ar` fuel always suffices.
(With `rd = 0` and `ar > 0` the source loops forever; no claim and no
reachable call touches that case.) -/
def drainRepeat (rd : Nat) : Nat → Nat → Nat × Bool
  | 0, ar => (ar, false)
  | fuel + 1, ar =>
    if rd < ar then
      let (ar', _) := drainRepeat rd fuel (ar - rd)
      (ar', true)
    else (ar, false)

/-- Rust `KeyRepeatState::update`: returns the new state and whether this tick
is a synthetic repeat. -/
def update (s : KeyRepeatState) (state : RawButtonState) (dt : Nat) :
    KeyRepeatState × Bool :=
  match state with
  | .Up | .Released =>
    ({ s with accum_repeat := 0, accum_down := 0, is_on_first_repeat := false }, false)
  | .Pressed =>
    ({ s with accum_repeat := 0, accum_down := 0, is_on_first_repeat := true }, false)
  | .Down =>
    match s.config with
    | .NoRepeat => (s, false)
    | .Repeat first multi =>
      let repeat_duration := if s.is_on_first_repeat then first else multi
      let ar := s.accum_repeat + dt
      let ad := s.accum_down + dt
      let (ar', is_repeating) := drainRepeat repeat_duration ar ar
      ({ s with
          accum_repeat := ar',
          accum_down := ad,
          is_on_first_repeat := s.is_on_first_repeat && !is_repeating },
        is_repeating)

end KeyRepeatState

-- ---------------------------------------------------------------------------
-- src/vi.rs : bundles

/-- Rust `KeyEntry`: a primary key with optional modifier requirements. -/
structure KeyEntry where
  key : Key
  ctrl : Bool
  shift : Bool
  meta : Bool
deriving DecidableEq, Repr

/-- Rust `KeyEntry::key` (the modifier-free constructor). -/
def KeyEntry.ofKey (key : Key) : KeyEntry :=
  ⟨key, false, false, false⟩

/-- Rust `InputBundle` -/
structure InputBundle where
  keys : List KeyEntry
deriving DecidableEq, Repr

namespace InputBundle

/-- One expansion of the `_add!` macro in `InputBundle::state` on the
accumulator `(is_pressed, is_down, is_down_prev)`:
`is_pressed &= input.kbd.is_key_pressed(key);`
`is_down &= input.kbd.is_key_down(key);`
`is_down_prev |= input.kbd.states.b.is_down(key);`
(note the source's `|=` on `is_down_prev`, whose initial value is
`true`). -/
def addKey (input : Input) (flags : Bool × Bool × Bool) (key : Key) :
    Bool × Bool × Bool :=
  (flags.1 && input.kbd.is_key_pressed key,
   flags.2.1 && input.kbd.is_key_down key,
   flags.2.2 || input.kbd.states.b.is_down key)

/-- The keys fed to `_add!` for one `KeyEntry`, in source order: the
primary key, then both sides of each required modifier. -/
def entryKeys (e : KeyEntry) : List Key :=
  [e.key]
    ++ (if e.ctrl then [Key.LCtrl, Key.RCtrl] else [])
    ++ (if e.shift then [Key.LShift, Key.RShift] else [])
    ++ (if e.meta then [Key.LMeta, Key.RMeta] else [])

/-- The `(is_pressed, is_down, is_down_prev)` flags computed for one
`KeyEntry` in the loop body of `InputBundle::state` (all three start
`true`). -/
def entryFlags (input : Input) (e : KeyEntry) : Bool × Bool × Bool :=
  (entryKeys e).foldl (addKey input) (true, true, true)

/-- The chord loop of `InputBundle::state`, threading the
`is_any_down` / `is_any_released` accumulators; an entry whose
`is_pressed` flag survives returns `Pressed` immediately. -/
def stateLoop (input : Input) :
    List KeyEntry → Bool → Bool → RawButtonState
  | [], is_any_down, is_any_released =>
    if is_any_down then .Down
    else if is_any_released then .Released
    else .Up
  | e :: rest, is_any_down, is_any_released =>
    let flags := entryFlags input e
    if flags.1 then .Pressed
    else
      stateLoop input rest (is_any_down || flags.2.1)
        (is_any_released || (flags.2.2 && flags.2.1))

/-- Rust `InputBundle::state` -/
def state (b : InputBundle) (input : Input) : RawButtonState :=
  stateLoop input b.keys false false

end InputBundle

-- ---------------------------------------------------------------------------
-- src/vi.rs : Button / AxisButton / AxisDirButton

/-- Rust `Button`: an input bundle with repeat state and a cached derived
state. -/
structure Button where
  input : InputBundle
  state : StrictButtonState
  /-- the source field is named `repeat`, a keyword here -/
  rep : KeyRepeatState
deriving DecidableEq, Repr

namespace Button

/-- Rust `Button::new` -/
def new (bundle : InputBundle) (repeat_cfg : KeyRepeatConfig) : Button :=
  ⟨bundle, .Up, KeyRepeatState.new repeat_cfg⟩

/-- Rust `Button::is_down` -/
def is_down (b : Button) : Bool :=
  match b.state with
  | .Down | .Pressed | .Repeating => true
  | _ => false

/-- Rust `Button::is_pressed` -/
def is_pressed (b : Button) : Bool :=
  match b.state with
  | .Pressed | .Repeating => true
  | _ => false

/-- Rust `Button::accum_down` -/
def accum_down (b : Button) : Nat :=
  b.rep.accum_down

/-- Rust `Button::update` -/
def update (b : Button) (input : Input) (dt : Nat) : Button :=
  let state := b.input.state input
  let (repeat', is_repeating) := b.rep.update state dt
  let state' : StrictButtonState :=
    if is_repeating then .Repeating
    else
      match state with
      | .Down => .Down
      | .Up => .Up
      | .Pressed => .Pressed
      | .Released => .Released
  ⟨b.input, state', repeat'⟩

end Button

/-- Rust `AxisButton`: a positive and a negative `Button`. -/
structure AxisButton where
  pos : Button
  neg : Button
deriving DecidableEq, Repr

namespace AxisButton

/-- Rust `AxisButton::update` -/
def update (ab : AxisButton) (input : Input) (dt : Nat) : AxisButton :=
  ⟨ab.pos.update input dt, ab.neg.update input dt⟩

/-- Rust `AxisButton::sign_down` -/
def sign_down (ab : AxisButton) : Sign :=
  match ab.pos.is_down, ab.neg.is_down with
  | true, true =>
    if ab.pos.rep.accum_down ≤ ab.neg.rep.accum_down then .Pos else .Neg
  | true, false => .Pos
  | false, true => .Neg
  | false, false => .Neutral

/-- Rust `AxisButton::sign_pressed` -/
def sign_pressed (ab : AxisButton) : Sign :=
  match ab.pos.is_down, ab.neg.is_down with
  | true, true =>
    if ab.pos.rep.accum_down ≤ ab.neg.rep.accum_down then
      if ab.pos.is_pressed then .Pos else .Neutral
    else
      if ab.neg.is_pressed then .Neg else .Neutral
  | true, false => if ab.pos.is_pressed then .Pos else .Neutral
  | false, true => if ab.neg.is_pressed then .Neg else .Neutral
  | false, false => .Neutral

/-- Rust `AxisButton::accum_down`: `min(pos.repeat.accum_down,
neg.repeat.accum_down)`. -/
def accum_down (ab : AxisButton) : Nat :=
  min ab.pos.rep.accum_down ab.neg.rep.accum_down

end AxisButton

/-- Rust `AxisDirButton`: x and y `AxisButton`s mixed into a direction. -/
structure AxisDirButton where
  x : AxisButton
  y : AxisButton
deriving DecidableEq, Repr

namespace AxisDirButton

/-- Rust `AxisDirButton::dir4`: the match over `[x, y]` in `src/vi.rs`.  The
two `unreachable!()` arms of the inner matches (hit only when the
tie-break axis's sign is 0, impossible for `to_i8` inputs surviving the
earlier arms) are given the arbitrary values `E` / `S`. -/
def dir4 (adb : AxisDirButton) (x y : Int) : Option Dir4 :=
  if x = 0 ∧ y = 0 then none
  else if x = 0 ∧ y = -1 then some .N
  else if x = 1 ∧ y = 0 then some .E
  else if x = 0 ∧ y = 1 then some .S
  else if x = -1 ∧ y = 0 then some .W
  else
    -- select axis down lately
    if adb.x.accum_down ≤ adb.y.accum_down then
      some (if x = 1 then .E else if x = -1 then .W else .E)
    else
      some (if y = 1 then .S else if y = -1 then .N else .S)

/-- Rust `AxisDirButton::dir4_down` -/
def dir4_down (adb : AxisDirButton) : Option Dir4 :=
  adb.dir4 adb.x.sign_down.to_i8 adb.y.sign_down.to_i8

/-- Rust `AxisDirButton::dir8`: direct lookup of the eight sign pairs. -/
def dir8 (x y : Int) : Option Dir8 :=
  if x = 0 ∧ y = 0 then none
  else if x = 0 ∧ y = -1 then some .N
  else if x = 1 ∧ y = -1 then some .NE
  else if x = 1 ∧ y = 0 then some .E
  else if x = 1 ∧ y = 1 then some .SE
  else if x = 0 ∧ y = 1 then some .S
  else if x = -1 ∧ y = 1 then some .SW
  else if x = -1 ∧ y = 0 then some .W
  else some .NW

/-- Rust `AxisDirButton::dir8_down` -/
def dir8_down (adb : AxisDirButton) : Option Dir8 :=
  dir8 adb.x.sign_down.to_i8 adb.y.sign_down.to_i8

end AxisDirButton

-- ---------------------------------------------------------------------------
-- src/input/keyboard.rs : pressed_keys / count_bits / store_keys

namespace KeyboardStateSnapshot

/-- Rust `KeyboardStateSnapshot::count_bits`: the parallel bit-count.
All `u32` arithmetic is exact except the final multiply, which wraps
(`% 2^32`); the subtraction never borrows across 2-bit groups so `Nat`
subtraction is exact. -/
def count_bits (key : Nat) : Nat :=
  let v := key
  let v := v - ((v >>> 1) &&& 0x55555555)
  let v := (v &&& 0x33333333) + ((v >>> 2) &&& 0x33333333)
  ((((v + (v >>> 4)) &&& 0xF0F0F0F) * 0x1010101) % 4294967296) >>> 24

/-- The `for i in 0..32` loop of Rust `KeyboardStateSnapshot::store_keys`,
with `is` the remaining loop indices.  A Rust assignment evaluates its
right-hand side first, so for a set bit the `Key::try_from(..).unwrap()`
panic (`none`) is checked before the slice write
`pressed_keys[ix] = ..`, which panics (`none`) when `ix` is out of
bounds. -/
def storeKeysLoop (keys offset : Nat) :
    List Nat → List Key → Nat → Option (List Key × Nat)
  | [], arr, ix => some (arr, ix)
  | i :: rest, arr, ix =>
    if keys &&& (1 <<< i) ≠ 0 then
      match Key.try_from (offset + i) with
      | none => none
      | some k =>
        if ix < arr.length then
          storeKeysLoop keys offset rest (arr.set ix k) (ix + 1)
        else none
    else storeKeysLoop keys offset rest arr ix

/-- Rust `KeyboardStateSnapshot::store_keys` (returns the written slice
and the new `ix`, or `none` on panic). -/
def store_keys (keys offset : Nat) (arr : List Key) (ix : Nat) :
    Option (List Key × Nat) :=
  storeKeysLoop keys offset (List.range 32) arr ix

/-- The per-word loop of Rust `KeyboardStateSnapshot::pressed_keys`; note
the source passes the constant offset `0 * 32` for every word. -/
def pressedKeysLoop : List Nat → List Key → Nat → Option (List Key × Nat)
  | [], arr, ix => some (arr, ix)
  | w :: rest, arr, ix =>
    if w ≠ 0 then
      match store_keys w (0 * 32) arr ix with
      | none => none
      | some (arr', ix') => pressedKeysLoop rest arr' ix'
    else pressedKeysLoop rest arr ix

/-- Rust `KeyboardStateSnapshot::pressed_keys`.  `Vec::with_capacity(count)`
allocates capacity but has length 0, and `store_keys` receives it as a
`&mut [Key]` slice — of length 0 — so the model starts from the empty
list. `none` models a panic. -/
def pressed_keys (s : KeyboardStateSnapshot) : Option (List Key) :=
  let count := (s.bits.map count_bits).sum
  if count = 0 then some []
  else
    match pressedKeysLoop s.bits [] 0 with
    | none => none
    | some (arr, _) => some arr

end KeyboardStateSnapshot

-- ---------------------------------------------------------------------------
-- Concrete fixtures used by the theorems below

/-- Snapshot with no key down. -/
def emptySnap : KeyboardStateSnapshot := ⟨[0, 0, 0, 0, 0, 0, 0, 0]⟩

/-- Snapshot with exactly `Key::A` (code 65: word 2, bit 1) down. -/
def snapA : KeyboardStateSnapshot := ⟨[0, 0, 2, 0, 0, 0, 0, 0]⟩

/-- Snapshot with `Key::A` and `Key::LCtrl` (code 162: word 5, bit 2)
down. -/
def snapALCtrl : KeyboardStateSnapshot := ⟨[0, 0, 2, 0, 0, 4, 0, 0]⟩

/-- Snapshot with `Key::A`, `Key::LCtrl` and `Key::RCtrl` (word 5,
bits 2 and 3) down. -/
def snapACtrlBoth : KeyboardStateSnapshot := ⟨[0, 0, 2, 0, 0, 12, 0, 0]⟩

/-- Snapshot with `Key::LCtrl` and `Key::RCtrl` down. -/
def snapCtrlBoth : KeyboardStateSnapshot := ⟨[0, 0, 0, 0, 0, 12, 0, 0]⟩

/-- Snapshot with exactly `Key::Back` (code 8: word 0, bit 8) down. -/
def backSnap : KeyboardStateSnapshot := ⟨[256, 0, 0, 0, 0, 0, 0, 0]⟩

/-- Bundle of the single modifier-free chord on `Key::A`. -/
def bundleA : InputBundle := ⟨[KeyEntry.ofKey Key.A]⟩

/-- Bundle of the single chord `ctrl + Key::A`. -/
def bundleACtrl : InputBundle := ⟨[⟨Key.A, true, false, false⟩]⟩

/-- Frame where `Key::A` was down in the previous buffer and is up in the
current one (a release edge). -/
def frameReleaseA : Input := ⟨⟨⟨emptySnap, snapA⟩⟩⟩

/-- Frame where `Key::A` is freshly down (previous buffer empty). -/
def framePressA : Input := ⟨⟨⟨snapA, emptySnap⟩⟩⟩

/-- Frame where `Key::A` is held (down in both buffers). -/
def frameHoldA : Input := ⟨⟨⟨snapA, snapA⟩⟩⟩

/-- Frame where `Key::A` and `Key::LCtrl` are freshly down and
`Key::RCtrl` is up. -/
def framePressALCtrl : Input := ⟨⟨⟨snapALCtrl, emptySnap⟩⟩⟩

/-- Frame where `Key::A` is freshly down while both ctrl keys are held
from the previous frame. -/
def frameHoldCtrlPressA : Input := ⟨⟨⟨snapACtrlBoth, snapCtrlBoth⟩⟩⟩

/-- A button whose cached state is `Down`, with the given total-held
accumulator. -/
def downButton (accum : Nat) : Button :=
  ⟨⟨[]⟩, .Down, ⟨.NoRepeat, 0, accum, false⟩⟩

/-- A button whose cached state is `Up`, with the given total-held
accumulator. -/
def offButton (accum : Nat) : Button :=
  ⟨⟨[]⟩, .Up, ⟨.NoRepeat, 0, accum, false⟩⟩

/-- A button on `bundleA` with 100ms/50ms repeat, freshly pressed
(one update on the press-edge frame). -/
def btnPressed : Button :=
  (Button.new bundleA (.Repeat 100 50)).update framePressA 50

/-- The freshly-pressed button after `n` further 50ms held updates. -/
def heldSteps : Nat → Button
  | 0 => btnPressed
  | n + 1 => (heldSteps n).update frameHoldA 50

/-- An `AxisDirButton` whose x axis (held 1ms) is more recent than its
y axis (held 5ms), both axes reading `Sign.Pos`. -/
def adbXRecent : AxisDirButton :=
  ⟨⟨downButton 1, offButton 100⟩, ⟨downButton 5, offButton 100⟩⟩

-- ---------------------------------------------------------------------------
-- Helper lemmas (shared)

/-- Once the `is_pressed` flag of the chord loop is false, further
`_add!` expansions keep it false. -/
lemma foldl_addKey_fst_false (inp : Input) :
    ∀ (ks : List Key) (acc : Bool × Bool × Bool),
      acc.1 = false → (ks.foldl (InputBundle.addKey inp) acc).1 = false
  | [], _, h => h
  | k :: ks, acc, h => by
    rw [List.foldl_cons]
    exact foldl_addKey_fst_false inp ks _ (by simp [InputBundle.addKey, h])

/-- If no key at all is freshly pressed, no chord's `is_pressed` flag
survives (the chord's own primary key already clears it). -/
lemma entryFlags_fst_false (inp : Input)
    (hp : ∀ k, inp.kbd.is_key_pressed k = false) (e : KeyEntry) :
    (InputBundle.entryFlags inp e).1 = false := by
  obtain ⟨tl, htl⟩ : ∃ tl, InputBundle.entryKeys e = e.key :: tl := ⟨_, rfl⟩
  unfold InputBundle.entryFlags
  rw [htl, List.foldl_cons]
  exact foldl_addKey_fst_false inp _ _ (by simp [InputBundle.addKey, hp])

/-- Unfolding equation for one step of the chord loop. -/
lemma stateLoop_cons (inp : Input) (e : KeyEntry) (rest : List KeyEntry)
    (ad ar : Bool) :
    InputBundle.stateLoop inp (e :: rest) ad ar =
      if (InputBundle.entryFlags inp e).1 then RawButtonState.Pressed
      else
        InputBundle.stateLoop inp rest (ad || (InputBundle.entryFlags inp e).2.1)
          (ar || ((InputBundle.entryFlags inp e).2.2 && (InputBundle.entryFlags inp e).2.1)) :=
  rfl

/-- If every chord's `is_pressed` flag is false, the chord loop cannot
return `Pressed`. -/
lemma stateLoop_ne_pressed (inp : Input) :
    ∀ (keys : List KeyEntry),
      (∀ e ∈ keys, (InputBundle.entryFlags inp e).1 = false) →
      ∀ ad ar, InputBundle.stateLoop inp keys ad ar ≠ RawButtonState.Pressed := by
  intro keys
  induction keys with
  | nil =>
    intro _ ad ar
    unfold InputBundle.stateLoop
    split_ifs <;> simp
  | cons e rest ih =>
    intro h ad ar
    have he := h e (List.mem_cons_self e rest)
    rw [stateLoop_cons, he]
    rw [if_neg (by simp)]
    exact ih (fun x hx => h x (List.mem_cons_of_mem e hx)) _ _

/-- The chord loop preserves the invariant `is_any_released →
is_any_down` (the source accumulates `is_down_prev && is_down` into
`is_any_released`, which entails `is_down`), so it never returns
`Released`. -/
lemma stateLoop_ne_released (inp : Input) :
    ∀ (keys : List KeyEntry) (ad ar : Bool), (ar = true → ad = true) →
      InputBundle.stateLoop inp keys ad ar ≠ RawButtonState.Released := by
  intro keys
  induction keys with
  | nil =>
    intro ad ar hinv
    unfold InputBundle.stateLoop
    cases ad with
    | true => simp
    | false =>
      cases ar with
      | true => simp_all
      | false => simp
  | cons e rest ih =>
    intro ad ar hinv
    rw [stateLoop_cons]
    cases hfl : (InputBundle.entryFlags inp e).1 with
    | true => simp [hfl]
    | false =>
      rw [if_neg (by simp [hfl])]
      apply ih
      intro hr
      rcases Bool.or_eq_true_iff.mp hr with h | h
      · simp [hinv h]
      · have hd : (InputBundle.entryFlags inp e).2.1 = true :=
          (Bool.and_eq_true_iff.mp h).2
        simp [hd]

-- ---------------------------------------------------------------------------
-- Claim theorems

/-- Claim C1: the spec says that when no chord is pressed, the bundle is
`Down` if any chord is down, else `Released` if some chord transitioned
down→not-down, else `Up`.  The code disagrees on the `Released` leg: at
the concrete frame where `Key::A` was down in the previous buffer and is
up now, the one-chord bundle on `A` is classified `Up`, not `Released` —
`is_down_prev` is initialized `true` and only `|=`-ed, and the release
test reads `is_down_prev && is_down`, so in fact `InputBundle::state`
can never return `Released` for any input whatsoever. -/
theorem bundle_state_release_bug :
    frameReleaseA.kbd.states.b.is_down Key.A = true ∧
    frameReleaseA.kbd.is_key_down Key.A = false ∧
    frameReleaseA.kbd.is_key_released Key.A = true ∧
    bundleA.state frameReleaseA = RawButtonState.Up ∧
    ∀ (inp : Input) (b : InputBundle), b.state inp ≠ RawButtonState.Released := by
  refine ⟨by decide, by decide, by decide, by decide, fun inp b => ?_⟩
  exact stateLoop_ne_released inp b.keys false false (by simp)

/-- Claim C1 witness: the universally quantified part applied at a
concrete input (the held-`A` frame and the ctrl-chord bundle). -/
theorem bundle_state_release_bug_witness :
    bundleACtrl.state frameHoldA ≠ RawButtonState.Released :=
  bundle_state_release_bug.2.2.2.2 frameHoldA bundleACtrl

/-- Claim C2: the spec says a chord with a required modifier matches when
its primary key is down and at least one physical side of the modifier is
down, with `Pressed` on the primary key's edge alone.  The code instead
`&&`s `is_key_down`/`is_key_pressed` over BOTH sides of the modifier:
with `A` freshly down and only `LCtrl` down the `ctrl+A` chord yields
`Up` (claim: `Pressed`), and with both ctrl sides held from the previous
frame and a fresh `A` edge it yields `Down` (claim: `Pressed`, since
modifiers should not need their own edge). -/
theorem chord_modifier_both_sides_bug :
    framePressALCtrl.kbd.is_key_pressed Key.A = true ∧
    framePressALCtrl.kbd.is_key_down Key.LCtrl = true ∧
    framePressALCtrl.kbd.is_key_down Key.RCtrl = false ∧
    bundleACtrl.state framePressALCtrl = RawButtonState.Up ∧
    frameHoldCtrlPressA.kbd.is_key_pressed Key.A = true ∧
    frameHoldCtrlPressA.kbd.is_key_down Key.LCtrl = true ∧
    frameHoldCtrlPressA.kbd.is_key_down Key.RCtrl = true ∧
    frameHoldCtrlPressA.kbd.is_key_pressed Key.LCtrl = false ∧
    bundleACtrl.state frameHoldCtrlPressA = RawButtonState.Down := by
  decide

/-- Claim C3 counterexample: with `Repeat{first: 100ms, multi: 50ms}`,
after a press and two 50ms held updates the accumulated held time is
exactly 100ms, yet the button reads `Down`, not `Repeating` — the
while-loop's strict `>` emits no pulse at exactly t = 100ms, refuting
"exactly one repeat pulse at t=100ms". -/
theorem no_pulse_at_exact_first_delay :
    (heldSteps 2).rep.accum_down = 100 ∧
    (heldSteps 2).state = StrictButtonState.Down ∧
    (heldSteps 2).state ≠ StrictButtonState.Repeating := by
  decide

/-- Claim C3 as amended: with `Repeat{first: 100ms, multi: 50ms}` and
50ms held updates after a press, no pulse is emitted while the
accumulated time is ≤ 100ms; the first `Repeating` classification comes
on the first update whose accumulated time strictly exceeds 100ms
(t = 150ms), and one per 50ms update thereafter; and a single update
with elapsed 400ms from the freshly-pressed state yields exactly one
`Repeating` classification (one update emits one classification, not
six). -/
theorem repeat_pulse_on_strict_excess :
    btnPressed.state = StrictButtonState.Pressed ∧
    (heldSteps 1).state = StrictButtonState.Down ∧
    (heldSteps 2).state = StrictButtonState.Down ∧
    (heldSteps 3).state = StrictButtonState.Repeating ∧
    (heldSteps 4).state = StrictButtonState.Repeating ∧
    (heldSteps 5).state = StrictButtonState.Repeating ∧
    (btnPressed.update frameHoldA 400).state = StrictButtonState.Repeating ∧
    (btnPressed.update frameHoldA 400).rep.accum_down = 400 := by
  decide

/-- Claim C4: when both sides of an `AxisButton` are down, `sign_down`
returns the sign of the side with the smaller accumulated held time,
`Pos` winning an exact tie (first operand of the `<=`); with exactly one
side down it returns that side's sign, and with neither it returns
`Neutral`. -/
theorem axis_sign_down_latest_wins (ab : AxisButton) :
    (ab.pos.is_down = true → ab.neg.is_down = true →
      ((ab.pos.accum_down < ab.neg.accum_down → ab.sign_down = Sign.Pos) ∧
       (ab.neg.accum_down < ab.pos.accum_down → ab.sign_down = Sign.Neg) ∧
       (ab.pos.accum_down = ab.neg.accum_down → ab.sign_down = Sign.Pos))) ∧
    (ab.pos.is_down = true → ab.neg.is_down = false → ab.sign_down = Sign.Pos) ∧
    (ab.pos.is_down = false → ab.neg.is_down = true → ab.sign_down = Sign.Neg) ∧
    (ab.pos.is_down = false → ab.neg.is_down = false → ab.sign_down = Sign.Neutral) := by
  refine ⟨?_, ?_, ?_, ?_⟩ <;> intro h1 h2
  · have e : ab.sign_down =
        if ab.pos.rep.accum_down ≤ ab.neg.rep.accum_down then Sign.Pos else Sign.Neg := by
      simp [AxisButton.sign_down, h1, h2]
    simp only [Button.accum_down]
    refine ⟨fun hlt => ?_, fun hlt => ?_, fun heq => ?_⟩ <;> rw [e]
    · rw [if_pos (Nat.le_of_lt hlt)]
    · rw [if_neg (by omega)]
    · rw [if_pos (by omega)]
  all_goals simp [AxisButton.sign_down, h1, h2]

/-- Claim C4 witness: both sides pressed in the same tick (both
accumulators zero) — the tie goes to `Pos`. -/
theorem axis_sign_down_latest_wins_witness :
    (downButton 0).is_down = true ∧
    (AxisButton.mk (downButton 0) (downButton 0)).sign_down = Sign.Pos :=
  ⟨rfl, ((axis_sign_down_latest_wins ⟨downButton 0, downButton 0⟩).1 rfl rfl).2.2 rfl⟩

/-- Claim C5: `dir4_down` maps axis-aligned sign pairs directly to
compass directions, yields `none` on the neutral pair (never a default
direction), and on a diagonal (both signs non-zero) picks the axis whose
`accum_down()` is smaller, the x axis winning ties, discarding the other
axis. -/
theorem dir4_down_axis_tiebreak (adb : AxisDirButton) :
    (adb.x.sign_down = Sign.Pos → adb.y.sign_down = Sign.Neutral →
      adb.dir4_down = some Dir4.E) ∧
    (adb.x.sign_down = Sign.Neg → adb.y.sign_down = Sign.Neutral →
      adb.dir4_down = some Dir4.W) ∧
    (adb.x.sign_down = Sign.Neutral → adb.y.sign_down = Sign.Pos →
      adb.dir4_down = some Dir4.S) ∧
    (adb.x.sign_down = Sign.Neutral → adb.y.sign_down = Sign.Neg →
      adb.dir4_down = some Dir4.N) ∧
    (adb.x.sign_down = Sign.Neutral → adb.y.sign_down = Sign.Neutral →
      adb.dir4_down = none) ∧
    (adb.x.sign_down ≠ Sign.Neutral → adb.y.sign_down ≠ Sign.Neutral →
      (adb.x.accum_down ≤ adb.y.accum_down →
        adb.dir4_down = some (if adb.x.sign_down = Sign.Pos then Dir4.E else Dir4.W)) ∧
      (adb.y.accum_down < adb.x.accum_down →
        adb.dir4_down = some (if adb.y.sign_down = Sign.Pos then Dir4.S else Dir4.N))) := by
  refine ⟨?_, ?_, ?_, ?_, ?_, ?_⟩ <;> intro h1 h2 <;>
    simp [AxisDirButton.dir4_down, AxisDirButton.dir4, Sign.to_i8, h1, h2]
  cases hx : adb.x.sign_down <;> cases hy : adb.y.sign_down <;> simp_all [Sign.to_i8]

/-- Claim C5 witness: both axes positive, x axis held for less time —
the diagonal resolves to `E`, discarding the y axis. -/
theorem dir4_down_axis_tiebreak_witness :
    adbXRecent.x.accum_down ≤ adbXRecent.y.accum_down ∧
    adbXRecent.dir4_down = some Dir4.E := by
  have h := ((dir4_down_axis_tiebreak adbXRecent).2.2.2.2.2
    (by decide) (by decide)).1 (by decide)
  have hx : adbXRecent.x.sign_down = Sign.Pos := by decide
  rw [hx] at h
  exact ⟨by decide, by simpa using h⟩

/-- Claim C6: `is_key_pressed k` holds exactly when the previous
snapshot (`states.b`) has `k` up and the current snapshot (`states.a`)
has `k` down; `is_key_released k` exactly when the previous snapshot has
`k` down and the current has `k` up. -/
theorem key_edge_detection (kbd : Keyboard) (k : Key) :
    (kbd.is_key_pressed k = true ↔
      kbd.states.b.is_up k = true ∧ kbd.states.a.is_down k = true) ∧
    (kbd.is_key_released k = true ↔
      kbd.states.b.is_down k = true ∧ kbd.states.a.is_up k = true) := by
  constructor <;> simp [Keyboard.is_key_pressed, Keyboard.is_key_released]

/-- Claim C7: after one `on_end_frame` with no intervening events the
previous snapshot equals the current one, every per-key pressed/released
query is false, no bundle is classified `Pressed` or `Released`, and a
second swap changes nothing. -/
theorem end_frame_swap_quiescent (kbd : Keyboard) (k : Key) (b : InputBundle) :
    (kbd.on_end_frame).states.b = (kbd.on_end_frame).states.a ∧
    (kbd.on_end_frame).is_key_pressed k = false ∧
    (kbd.on_end_frame).is_key_released k = false ∧
    b.state ⟨kbd.on_end_frame⟩ ≠ RawButtonState.Pressed ∧
    b.state ⟨kbd.on_end_frame⟩ ≠ RawButtonState.Released ∧
    (kbd.on_end_frame).on_end_frame = kbd.on_end_frame := by
  have hp : ∀ k', (kbd.on_end_frame).is_key_pressed k' = false := by
    intro k'
    simp [Keyboard.is_key_pressed, Keyboard.on_end_frame, KeyboardStateSnapshot.is_up]
  refine ⟨rfl, hp k, ?_, ?_, ?_, rfl⟩
  · simp [Keyboard.is_key_released, Keyboard.on_end_frame, KeyboardStateSnapshot.is_up]
  · exact stateLoop_ne_pressed _ _ (fun e _ => entryFlags_fst_false _ hp e) _ _
  · exact stateLoop_ne_released _ _ _ _ (by simp)

/-- Claim C7 witness: the non-`Pressed` conclusion at a concrete
keyboard (`A` held through the swap) and the one-chord bundle on `A`. -/
theorem end_frame_swap_quiescent_witness :
    bundleA.state ⟨(Keyboard.mk ⟨snapA, emptySnap⟩).on_end_frame⟩ ≠
      RawButtonState.Pressed :=
  (end_frame_swap_quiescent ⟨⟨snapA, emptySnap⟩⟩ Key.A bundleA).2.2.2.1

/-- Claim C8: with `NoRepeat` configuration, `KeyRepeatState::update` on
a `Down` classification returns false and leaves the whole state — both
accumulators included — unchanged. -/
theorem no_repeat_update_identity (s : KeyRepeatState) (dt : Nat)
    (h : s.config = KeyRepeatConfig.NoRepeat) :
    s.update RawButtonState.Down dt = (s, false) := by
  simp [KeyRepeatState.update, h]

/-- Claim C8 witness: the identity at a concrete repeat state and a
concrete elapsed time. -/
theorem no_repeat_update_identity_witness :
    (KeyRepeatState.new KeyRepeatConfig.NoRepeat).config = KeyRepeatConfig.NoRepeat ∧
    (KeyRepeatState.new KeyRepeatConfig.NoRepeat).update RawButtonState.Down 123 =
      (KeyRepeatState.new KeyRepeatConfig.NoRepeat, false) :=
  ⟨rfl, no_repeat_update_identity (KeyRepeatState.new KeyRepeatConfig.NoRepeat) 123 rfl⟩

/-- Claim C9: the spec says `pressed_keys` returns exactly the down keys
in ascending identifier order without panicking.  The code panics
whenever any key is down: `Vec::with_capacity(count)` has length 0, and
`store_keys` writes `pressed_keys[ix]` through it as a zero-length
slice.  At the concrete snapshot with only `Key::Back` down the model
therefore yields `none` (panic) instead of `[Key::Back]`. -/
theorem pressed_keys_out_of_bounds :
    backSnap.is_down Key.Back = true ∧
    backSnap.pressed_keys = none := by
  decide

/-- Claim C10: `Dir8::from_signs` is a right inverse of `Dir8::signs` on
all eight directions, and the neutral sign pair maps to `None`. -/
theorem dir8_signs_roundtrip :
    (∀ d : Dir8, Dir8.from_signs d.signs = some d) ∧
    Dir8.from_signs (Sign.Neutral, Sign.Neutral) = none := by
  refine ⟨fun d => ?_, rfl⟩
  cases d <;> rfl

end Xdl
